import Mathlib

/-!
Shallow embedding of the `woori_rag` cache-augmented-generation core:
`CAGCache` (src/app/cag.py) and `CAGRAGChain` (src/app/cag_rag_chain.py).

Modelling choices:
* Python strings are sequences of code points, modelled as `List Char`
  (`PyStr`).  String methods (`strip`, `startswith`, `lower`, `in`,
  `split("\n")`) are modelled point-for-point on that representation.
* The external collaborators (the Redis vector index's KNN search, the
  Elasticsearch retrieval call and the LLM call) are modelled as oracle
  values carried in a `ChainEnv`: each is the outcome (`Except`) the
  external system produced for this invocation, exactly as the code
  observes it at the call site.
* Similarity scores and thresholds are rationals (`Rat`); the code's
  `float` comparisons `sim >= threshold` become `threshold ≤ sim`.
* Python's `hash` and the sentence-transformer embedding are opaque
  external functions, passed in as parameters `pyhash` and `pyembed`.
* The Redis hash store reached through `r.hset` / `r.delete` /
  `ft(...).search` is modelled as an association list keyed by the
  cache key; `hset` overwrites, `delete` removes.
-/

/-- A Python string: a sequence of code points. -/
abbrev PyStr := List Char

/-- Embed a Lean string literal as a Python string. -/
def str (s : String) : PyStr := s.data

/-- Python whitespace (the ASCII part of `str.strip` / `\s`). -/
def pyIsWs (c : Char) : Bool :=
  c = ' ' || c = '\t' || c = '\n' || c = '\r' || c = '\x0b' || c = '\x0c'

/-- Python `s.strip()`. -/
def pyStrip (s : PyStr) : PyStr :=
  ((s.dropWhile pyIsWs).reverse.dropWhile pyIsWs).reverse

/-- Python `s.startswith(p)`. -/
def pyStartsWith (s p : PyStr) : Bool := p.isPrefixOf s

/-- Python `sub in s`: `sub` occurs contiguously somewhere in `s`. -/
def pyContains : (s sub : PyStr) → Bool
  | [], sub => sub.isEmpty
  | c :: t, sub => sub.isPrefixOf (c :: t) || pyContains t sub

/-- Python `s.lower()` (ASCII part, which is all the code's probes use). -/
def pyLower (s : PyStr) : PyStr := s.map Char.toLower

/-- Python `s.endswith(p)`. -/
def pyEndsWith (s p : PyStr) : Bool := p.isSuffixOf s

/-- Python `s.split("\n")` (always at least one piece, pieces keep no `\n`). -/
def splitNL : PyStr → List PyStr
  | [] => [[]]
  | c :: rest =>
    let r := splitNL rest
    if c = '\n' then [] :: r
    else
      match r with
      | [] => [[c]]
      | h :: t => (c :: h) :: t

/-- Python `"\n".join(xs)`. -/
def joinNL (xs : List PyStr) : PyStr := List.intercalate (str "\n") xs

/-- Regex building block `pat\.?$`: the line ends with `pat`, optionally
followed by a single period. -/
def endsWithOptDot (s pat : PyStr) : Bool :=
  pyEndsWith s pat || pyEndsWith s (pat ++ str ".")

/-- If the line ends with a period, drop that final period. -/
def dropDot (s : PyStr) : PyStr :=
  if pyEndsWith s (str ".") then s.dropLast else s

/-- Regex building block `a\s*b$`: the line ends with `a`, then arbitrary
whitespace, then `b`. -/
def endsWithWsSeq (s a b : PyStr) : Bool :=
  let r := s.reverse
  b.reverse.isPrefixOf r &&
  a.reverse.isPrefixOf ((r.drop b.length).dropWhile pyIsWs)

/-- Regex building block `.*a\s*b.*`: somewhere in the line, `a`, then
arbitrary whitespace, then `b`. -/
def containsWsSeq (a b : PyStr) : PyStr → Bool
  | [] => a.isEmpty && b.isEmpty
  | c :: t =>
    (a.isPrefixOf (c :: t) &&
      b.isPrefixOf (((c :: t).drop a.length).dropWhile pyIsWs)) ||
    containsWsSeq a b t

/-- The question-line pattern of `CAGCache.extract_qa_pairs`
(src/app/cag.py lines 119-122): `re.match(r".*(\?|？|궁금합니다\.?|...)$", line)`,
written out alternative by alternative. -/
def question_match (line : PyStr) : Bool :=
  pyEndsWith line (str "?") ||
  pyEndsWith line (str "？") ||
  endsWithOptDot line (str "궁금합니다") ||
  endsWithOptDot line (str "알려주세요") ||
  endsWithOptDot line (str "무엇인가요") ||
  pyContains line (str "어떻게") ||
  containsWsSeq (str "대해") (str "설명") line ||
  pyContains line (str "요약") ||
  endsWithOptDot line (str "문의합니다") ||
  endsWithOptDot line (str "문의드립니다") ||
  endsWithWsSeq (dropDot line) (str "설명해") (str "주") ||
  endsWithWsSeq (dropDot line) (str "설명하여") (str "주") ||
  endsWithOptDot line (str "설명바랍니다") ||
  containsWsSeq (str "알고") (str "싶") line ||
  endsWithOptDot line (str "요청합니다") ||
  endsWithOptDot line (str "요청드립니다") ||
  pyEndsWith line (str "유의사항") ||
  pyEndsWith line (str "절차") ||
  pyEndsWith line (str "방법") ||
  pyEndsWith line (str "기준") ||
  pyEndsWith line (str "대상") ||
  pyEndsWith line (str "요건") ||
  pyEndsWith line (str "처리") ||
  pyEndsWith line (str "신고") ||
  pyEndsWith line (str "수입") ||
  pyEndsWith line (str "수출") ||
  pyEndsWith line (str "반입") ||
  pyEndsWith line (str "검사") ||
  pyEndsWith line (str "허가") ||
  pyEndsWith line (str "확인") ||
  pyEndsWith line (str "통관")

/-- A question/answer pair produced by the ingestion line-scan. -/
structure QAPair where
  question : PyStr
  answer : PyStr
deriving DecidableEq

/-- The flush step of the line-scan: Python
`if current_q and current_a: qa_pairs.append({...})` — the pair is emitted
only when the open question is truthy (non-empty string) and at least one
answer line has accumulated; the answer is `"\n".join(current_a).strip()`. -/
def flushPair (cq : Option PyStr) (ca : List PyStr) : List QAPair :=
  match cq with
  | some q => if !q.isEmpty && !ca.isEmpty then [⟨q, pyStrip (joinNL ca)⟩] else []
  | none => []

/-- The per-line loop of `CAGCache.extract_qa_pairs`
(src/app/cag.py lines 113-141), state = (current_q, current_a):
each line is stripped; a question line flushes any open pair and opens a
new question with an empty answer buffer; other lines are appended to the
open question's buffer (or dropped when no question is open); at end of
input the open pair is flushed. -/
def scanPairs : List PyStr → Option PyStr → List PyStr → List QAPair
  | [], cq, ca => flushPair cq ca
  | l :: rest, cq, ca =>
    let line := pyStrip l
    if question_match line then
      flushPair cq ca ++ scanPairs rest (some line) []
    else
      match cq with
      | some q =>
        if !q.isEmpty then scanPairs rest (some q) (ca ++ [line])
        else scanPairs rest (some q) ca
      | none => scanPairs rest none ca

/-- `extract_qa_pairs` applied to one page's merged text (page body text
plus the flattened table block, already concatenated — pdfplumber and the
table flattening feed this text in). -/
def extract_qa_pairs_page (merged_text : PyStr) : List QAPair :=
  scanPairs (splitNL merged_text) none []

/-- `CAGCache.extract_qa_pairs` over a whole document: the per-page pairs
accumulate in order (src/app/cag.py lines 89-143). -/
def extract_qa_pairs (pages : List PyStr) : List QAPair :=
  (pages.map extract_qa_pairs_page).flatten

/-- A record stored in the Redis cache hash at some `cache:` key:
`{embedding, text, source}` (src/app/cag.py lines 212-219). -/
structure Entry where
  embedding : PyStr
  text : PyStr
  source : PyStr
deriving DecidableEq

/-- Redis `HSET key mapping=...`: overwrite the record at `key`. -/
def hset (idx : List (PyStr × Entry)) (k : PyStr) (e : Entry) :
    List (PyStr × Entry) :=
  (k, e) :: idx.filter (fun p => !(p.1 == k))

/-- Redis `DEL key`: remove the record at `key` (idempotent). -/
def rdelete (idx : List (PyStr × Entry)) (k : PyStr) : List (PyStr × Entry) :=
  idx.filter (fun p => !(p.1 == k))

/-- The mutable state of a `CAGCache`: the Redis-side index plus the
`user_cache = deque(maxlen=dynamic_cache_size)` eviction window
(src/app/cag.py line 41). -/
structure CacheState where
  index : List (PyStr × Entry)
  user_cache : List PyStr
  maxlen : Nat
deriving DecidableEq

/-- `deque(maxlen=m).append(k)`: once the deque is full, appending
discards elements from the left so the length never exceeds `maxlen`. -/
def dequeAppend (maxlen : Nat) (dq : List PyStr) (k : PyStr) : List PyStr :=
  let dq2 := dq ++ [k]
  if maxlen < dq2.length then dq2.drop (dq2.length - maxlen) else dq2

/-- The dynamic-cache key `f"cache:dyn:{abs(hash(query)) % (10**8)}"`
(src/app/cag.py line 211). -/
def dynKey (pyhash : PyStr → Int) (query : PyStr) : PyStr :=
  str "cache:dyn:" ++ (Nat.repr ((pyhash query).natAbs % 10 ^ 8)).data

/-- `CAGCache.save_dynamic_cache` (src/app/cag.py lines 210-226):
hset the entry, append the key to the deque, and only if the deque's
length now exceeds its maxlen, pop the oldest key and delete it from
Redis. -/
def save_dynamic_cache (pyembed : PyStr → PyStr) (pyhash : PyStr → Int)
    (st : CacheState) (query answer : PyStr) : CacheState :=
  let key := dynKey pyhash query
  let idx1 := hset st.index key ⟨pyembed query, answer, str "dynamic_cache"⟩
  let uc := dequeAppend st.maxlen st.user_cache key
  if st.maxlen < uc.length then
    match uc with
    | [] => { index := idx1, user_cache := uc, maxlen := st.maxlen }
    | oldest :: rest =>
      { index := rdelete idx1 oldest, user_cache := rest, maxlen := st.maxlen }
  else
    { index := idx1, user_cache := uc, maxlen := st.maxlen }

/-- A sequence of `save_dynamic_cache` calls, oldest first. -/
def run_saves (pyembed : PyStr → PyStr) (pyhash : PyStr → Int)
    (st : CacheState) (ops : List (PyStr × PyStr)) : CacheState :=
  ops.foldl (fun s qa => save_dynamic_cache pyembed pyhash s qa.1 qa.2) st

/-- One document of a Redis KNN search result: `score` is the cosine
distance, `text` and `source` the stored fields. -/
structure RDoc where
  score : Rat
  text : PyStr
  source : PyStr
deriving DecidableEq

/-- The default `threshold=0.7` of `CAGCache.check_cache`
(src/app/cag.py line 171). -/
def check_cache_default_threshold : Rat := 7 / 10

/-- `CAGCache.check_cache` (src/app/cag.py lines 167-205), with the Redis
KNN search outcome passed in as an oracle (`.error` = the search raised;
the list is the ranked `res.docs`, ascending by distance as the code
requests via `sort_by("score")`): a search error or an empty result set
returns `None`; otherwise `sim = 1 - score` of the top document is
compared with the threshold and the stored text is returned on a hit. -/
def check_cache (res : Except Unit (List RDoc))
    (threshold : Rat := check_cache_default_threshold) : Option PyStr :=
  match res with
  | .error _ => none
  | .ok [] => none
  | .ok (d :: _) =>
    let sim := 1 - d.score
    if threshold ≤ sim then some d.text else none

/-- Python truthiness of `check_cache`'s result (`if cached_answer:`):
`None` and the empty string are falsy. -/
def pyTruthyOptStr : Option PyStr → Bool
  | some s => !s.isEmpty
  | none => false

/-- The default `cache_threshold=0.85` of `CAGRAGChain.__init__`
(src/app/cag_rag_chain.py line 47). -/
def chain_default_cache_threshold : Rat := 85 / 100

/-- The chain object; its only state relevant to the decision logic is the
configured cache threshold (src/app/cag_rag_chain.py lines 38-55). -/
structure CAGRAGChain where
  cache_threshold : Rat := chain_default_cache_threshold
deriving DecidableEq

/-- One Elasticsearch hit as the code reads it: `_source.source` and
`_source.content`. -/
structure ESHit where
  source : PyStr
  content : PyStr
deriving DecidableEq

/-- The outcomes of the three external calls a single `invoke` performs. -/
structure ChainEnv where
  cacheSearch : Except Unit (List RDoc)
  retrieval : Except Unit (List ESHit)
  generation : Except PyStr PyStr

/-- One labelled context block of `_retrieve_documents`
(src/app/cag_rag_chain.py lines 132-135). -/
def contextBlock (i : Nat) (h : ESHit) : PyStr :=
  str "\n--- 문서 " ++ (Nat.repr (i + 1)).data ++ str " (출처: " ++ h.source ++
    str ") ---\n" ++ h.content ++ str "\n-----------------------------------\n"

/-- The context accumulation loop of `_retrieve_documents`. -/
def buildContext : Nat → List ESHit → PyStr
  | _, [] => []
  | i, h :: rest => contextBlock i h ++ buildContext (i + 1) rest

/-- `CAGRAGChain._retrieve_documents` (src/app/cag_rag_chain.py lines
111-139), with the Elasticsearch call's outcome as an oracle: any raised
exception, and an empty hit list, both yield the empty context string. -/
def retrieve_documents (res : Except Unit (List ESHit)) : PyStr :=
  match res with
  | .error _ => []
  | .ok [] => []
  | .ok hits => buildContext 0 hits

/-- The fixed connection-failure answer of `_generate_answer`
(src/app/cag_rag_chain.py line 153). -/
def gen_conn_error_msg : PyStr :=
  str "❌ Ollama 서버에 연결할 수 없습니다. 서버가 실행 중인지 확인하세요."

/-- The fixed timeout answer of `_generate_answer`
(src/app/cag_rag_chain.py line 155). -/
def gen_timeout_error_msg : PyStr :=
  str "❌ 응답 시간을 초과했습니다. 잠시 후 다시 시도해주세요."

/-- `CAGRAGChain._generate_answer` (src/app/cag_rag_chain.py lines
141-157), with the LLM call's outcome as an oracle (`.error e` carries
`str(e)`): success is stripped; an exception is classified by its message
(`"Connection" in msg`, then `"timeout" in msg.lower()`, else a generic
message embedding the exception text). -/
def generate_answer (res : Except PyStr PyStr) : PyStr :=
  match res with
  | .ok answer => pyStrip answer
  | .error e =>
    if pyContains e (str "Connection") then gen_conn_error_msg
    else if pyContains (pyLower e) (str "timeout") then gen_timeout_error_msg
    else str "❌ 답변 생성 중 오류: " ++ e

/-- The fixed no-documents answer (src/app/cag_rag_chain.py line 188). -/
def no_docs_msg : PyStr :=
  str "죄송합니다. 질문에 대한 관련 문서를 검색할 수 없습니다."

/-- The fixed empty-question answer (src/app/cag_rag_chain.py line 171). -/
def empty_question_msg : PyStr := str "질문을 입력해주세요."

/-- The result dict `{"answer", "cache_hit", "source"}` of
`CAGRAGChain.invoke`. -/
structure ChainResult where
  answer : PyStr
  cache_hit : Bool
  source : PyStr
deriving DecidableEq

/-- Steps 2-4 of `CAGRAGChain.invoke` (src/app/cag_rag_chain.py lines
181-204), the path taken when the cache lookup was falsy: retrieve; with
an empty context return the fixed no-documents answer with source NONE;
otherwise generate, and save to the dynamic cache unless the answer
starts with the error marker. -/
def rag_fallback (pyembed : PyStr → PyStr) (pyhash : PyStr → Int)
    (env : ChainEnv) (st : CacheState) (question : PyStr) :
    ChainResult × CacheState :=
  let context := retrieve_documents env.retrieval
  if context.isEmpty then
    (⟨no_docs_msg, false, str "NONE"⟩, st)
  else
    let answer := generate_answer env.generation
    if pyStartsWith answer (str "❌") then
      (⟨answer, false, str "RAG"⟩, st)
    else
      (⟨answer, false, str "RAG"⟩, save_dynamic_cache pyembed pyhash st question answer)

/-- `CAGRAGChain.invoke` (src/app/cag_rag_chain.py lines 159-204):
an empty question returns the fixed prompt immediately; otherwise the
cache is probed at `self.cache_threshold` and a truthy cached answer is
returned as a hit with no state change; a falsy one (None or empty
string) falls through to the RAG pipeline. -/
def CAGRAGChain.invoke (self : CAGRAGChain) (pyembed : PyStr → PyStr)
    (pyhash : PyStr → Int) (env : ChainEnv) (st : CacheState)
    (question : PyStr) : ChainResult × CacheState :=
  if question.isEmpty then
    (⟨empty_question_msg, false, str "NONE"⟩, st)
  else
    match check_cache env.cacheSearch self.cache_threshold with
    | some s =>
      if s.isEmpty then rag_fallback pyembed pyhash env st question
      else (⟨s, true, str "CAG"⟩, st)
    | none => rag_fallback pyembed pyhash env st question

/-! ## Helper lemmas -/

theorem list_ne_nil_isEmpty_false {l : PyStr} (h : l ≠ []) : l.isEmpty = false := by
  cases l with
  | nil => exact absurd rfl h
  | cons c t => rfl

theorem dequeAppend_length_le (maxlen : Nat) (dq : List PyStr) (k : PyStr)
    (h : dq.length ≤ maxlen) : (dequeAppend maxlen dq k).length ≤ maxlen := by
  simp only [dequeAppend]
  split
  · simp only [List.length_drop]
    omega
  · rename_i hc
    simp only [List.length_append, List.length_singleton] at hc ⊢
    omega

theorem save_user_cache_spec (pyembed : PyStr → PyStr) (pyhash : PyStr → Int)
    (st : CacheState) (q a : PyStr) (h : st.user_cache.length ≤ st.maxlen) :
    (save_dynamic_cache pyembed pyhash st q a).user_cache.length ≤ st.maxlen ∧
    (save_dynamic_cache pyembed pyhash st q a).maxlen = st.maxlen := by
  have huc := dequeAppend_length_le st.maxlen st.user_cache (dynKey pyhash q) h
  simp only [save_dynamic_cache]
  rw [if_neg (Nat.not_lt.mpr huc)]
  exact ⟨huc, rfl⟩

theorem run_saves_user_cache_le (pyembed : PyStr → PyStr) (pyhash : PyStr → Int) :
    ∀ (ops : List (PyStr × PyStr)) (st : CacheState),
      st.user_cache.length ≤ st.maxlen →
      (run_saves pyembed pyhash st ops).user_cache.length ≤ st.maxlen := by
  intro ops
  induction ops with
  | nil => intro st h; exact h
  | cons op rest ih =>
    intro st h
    have hs := save_user_cache_spec pyembed pyhash st op.1 op.2 h
    have hrec := ih (save_dynamic_cache pyembed pyhash st op.1 op.2) (by rw [hs.2]; exact hs.1)
    rw [hs.2] at hrec
    simpa [run_saves, List.foldl_cons] using hrec

theorem invoke_hit (self : CAGRAGChain) (pyembed : PyStr → PyStr) (pyhash : PyStr → Int)
    (env : ChainEnv) (st : CacheState) (q : PyStr) (d : RDoc) (ds : List RDoc)
    (hq : q ≠ []) (hres : env.cacheSearch = .ok (d :: ds))
    (hsim : self.cache_threshold ≤ 1 - d.score) (htext : d.text ≠ []) :
    self.invoke pyembed pyhash env st q = (⟨d.text, true, str "CAG"⟩, st) := by
  have hcc : check_cache env.cacheSearch self.cache_threshold = some d.text := by
    rw [hres]; simp [check_cache, hsim]
  simp [CAGRAGChain.invoke, list_ne_nil_isEmpty_false hq, hcc,
    list_ne_nil_isEmpty_false htext]

theorem invoke_miss (self : CAGRAGChain) (pyembed : PyStr → PyStr) (pyhash : PyStr → Int)
    (env : ChainEnv) (st : CacheState) (q : PyStr) (hq : q ≠ [])
    (hmiss : pyTruthyOptStr (check_cache env.cacheSearch self.cache_threshold) = false) :
    self.invoke pyembed pyhash env st q = rag_fallback pyembed pyhash env st q := by
  cases hcc : check_cache env.cacheSearch self.cache_threshold with
  | none => simp [CAGRAGChain.invoke, list_ne_nil_isEmpty_false hq, hcc]
  | some s =>
    rw [hcc] at hmiss
    have hs : s.isEmpty = true := by simpa [pyTruthyOptStr] using hmiss
    simp [CAGRAGChain.invoke, list_ne_nil_isEmpty_false hq, hcc, hs]

theorem rag_fallback_no_docs (pyembed : PyStr → PyStr) (pyhash : PyStr → Int)
    (env : ChainEnv) (st : CacheState) (q : PyStr)
    (hret : env.retrieval = .error () ∨ env.retrieval = .ok []) :
    rag_fallback pyembed pyhash env st q = (⟨no_docs_msg, false, str "NONE"⟩, st) := by
  rcases hret with h | h <;> simp [rag_fallback, retrieve_documents, h]

theorem retrieve_documents_cons_isEmpty (h : ESHit) (t : List ESHit) :
    (retrieve_documents (.ok (h :: t))).isEmpty = false := rfl

theorem rag_fallback_gen_error (pyembed : PyStr → PyStr) (pyhash : PyStr → Int)
    (env : ChainEnv) (st : CacheState) (q : PyStr) (hits : List ESHit) (e : PyStr)
    (hret : env.retrieval = .ok hits) (hne : hits ≠ [])
    (hgen : env.generation = .error e)
    (herr : pyContains e (str "Connection") = true ∨
      pyContains (pyLower e) (str "timeout") = true) :
    ((rag_fallback pyembed pyhash env st q).1.answer = gen_conn_error_msg ∨
      (rag_fallback pyembed pyhash env st q).1.answer = gen_timeout_error_msg) ∧
    (rag_fallback pyembed pyhash env st q).1.cache_hit = false ∧
    (rag_fallback pyembed pyhash env st q).1.source = str "RAG" ∧
    (rag_fallback pyembed pyhash env st q).2 = st := by
  obtain ⟨h0, t0, rfl⟩ : ∃ h0 t0, hits = h0 :: t0 := by
    cases hits with
    | nil => exact absurd rfl hne
    | cons a b => exact ⟨a, b, rfl⟩
  have hctx := retrieve_documents_cons_isEmpty h0 t0
  by_cases hc : pyContains e (str "Connection") = true
  · have hans : generate_answer env.generation = gen_conn_error_msg := by
      rw [hgen]; simp [generate_answer, hc]
    have hstart : pyStartsWith gen_conn_error_msg (str "❌") = true := by decide
    simp [rag_fallback, hret, hctx, hans, hstart]
  · have ht : pyContains (pyLower e) (str "timeout") = true := by
      rcases herr with h | h
      · exact absurd h hc
      · exact h
    have hans : generate_answer env.generation = gen_timeout_error_msg := by
      rw [hgen]; simp [generate_answer, hc, ht]
    have hstart : pyStartsWith gen_timeout_error_msg (str "❌") = true := by decide
    simp [rag_fallback, hret, hctx, hans, hstart]

theorem mem_flushPair {cq : Option PyStr} {ca : List PyStr} {p : QAPair}
    (hp : p ∈ flushPair cq ca) :
    ∃ q b, q ≠ [] ∧ b ≠ [] ∧ p = ⟨q, pyStrip (joinNL b)⟩ := by
  cases cq with
  | none => simp [flushPair] at hp
  | some q =>
    simp only [flushPair] at hp
    split at hp
    · rename_i hcond
      simp only [List.mem_singleton] at hp
      subst hp
      refine ⟨q, ca, ?_, ?_, rfl⟩
      · intro hq; rw [hq] at hcond; simp at hcond
      · intro hca; rw [hca] at hcond; simp at hcond
    · simp at hp

/-! ## Claim theorems -/

/-- Claim C1 (code bug evaluation): with the default window size `N = 5`,
six `save_dynamic_cache` calls with six distinct keys leave the window
holding exactly the five most recent keys, but the entry of the evicted
oldest key is STILL present in the index: because
`user_cache = deque(maxlen=N)` silently discards the oldest key on
append, `len(user_cache) > user_cache.maxlen` is never true and the
pop-and-`delete` branch of src/app/cag.py lines 221-224 never runs, so —
contrary to the claim — the evicted key is not deleted from
SemanticCacheIndex and a subsequent lookup can still return it. -/
theorem C1_evicted_key_still_in_index :
    let pyembed : PyStr → PyStr := fun s => s
    let pyhash : PyStr → Int := fun s => Int.ofNat ((s.headD 'a').toNat)
    let ops : List (PyStr × PyStr) :=
      [(str "1", str "a"), (str "2", str "a"), (str "3", str "a"),
       (str "4", str "a"), (str "5", str "a"), (str "6", str "a")]
    let stN := run_saves pyembed pyhash ⟨[], [], 5⟩ ops
    stN.user_cache =
      [dynKey pyhash (str "2"), dynKey pyhash (str "3"), dynKey pyhash (str "4"),
       dynKey pyhash (str "5"), dynKey pyhash (str "6")] ∧
    (stN.index.lookup (dynKey pyhash (str "1"))).isSome = true := by
  decide

/-- Claim C2, counterexample to the claim as stated: a query whose nearest
cached entry has similarity `1 - distance = 9/10 ≥ 85/100 = threshold` but
whose stored text is the empty string does NOT come back as a hit: the
chain's `if cached_answer:` test is falsy on the empty string, so
`cache_hit = false` and (retrieval and generation succeeding) a write-back
occurs, changing the state. -/
theorem C2_empty_text_counterexample :
    ({} : CAGRAGChain).cache_threshold ≤ 1 - (1 / 10 : Rat) ∧
    (({} : CAGRAGChain).invoke (fun s => s) (fun _ => (0 : Int))
        ⟨.ok [⟨1 / 10, [], str "dynamic_cache"⟩],
         .ok [⟨str "src", str "doc"⟩], .ok (str "생성된 답변")⟩
        ⟨[], [], 5⟩ (str "질문")).1.cache_hit = false ∧
    (({} : CAGRAGChain).invoke (fun s => s) (fun _ => (0 : Int))
        ⟨.ok [⟨1 / 10, [], str "dynamic_cache"⟩],
         .ok [⟨str "src", str "doc"⟩], .ok (str "생성된 답변")⟩
        ⟨[], [], 5⟩ (str "질문")).2 ≠ ⟨[], [], 5⟩ := by
  have hsim : ({} : CAGRAGChain).cache_threshold ≤ 1 - (1 / 10 : Rat) := by
    show chain_default_cache_threshold ≤ _
    norm_num [chain_default_cache_threshold]
  have hcc : check_cache (.ok [⟨1 / 10, [], str "dynamic_cache"⟩])
      ({} : CAGRAGChain).cache_threshold = some [] := by
    norm_num [check_cache, chain_default_cache_threshold]
  have hinv := invoke_miss {} (fun s => s) (fun _ => (0 : Int))
    ⟨.ok [⟨1 / 10, [], str "dynamic_cache"⟩],
     .ok [⟨str "src", str "doc"⟩], .ok (str "생성된 답변")⟩
    ⟨[], [], 5⟩ (str "질문") (by decide) (by rw [hcc]; rfl)
  refine ⟨hsim, ?_, ?_⟩
  · rw [hinv]
    decide
  · rw [hinv]
    decide

/-- Claim C2 (amended): for every non-empty query whose nearest cached
entry has similarity `1 - distance ≥ threshold` and a non-empty stored
text, `check_cache` returns exactly that entry's text, and the chain
returns it with `cache_hit = true` and `source = CAG` with no write-back:
the index and the eviction window are unchanged. -/
theorem C2_cache_hit_returns_text_no_writeback (self : CAGRAGChain)
    (pyembed : PyStr → PyStr) (pyhash : PyStr → Int) (env : ChainEnv)
    (st : CacheState) (q : PyStr) (d : RDoc) (ds : List RDoc)
    (hq : q ≠ []) (hres : env.cacheSearch = .ok (d :: ds))
    (hsim : self.cache_threshold ≤ 1 - d.score) (htext : d.text ≠ []) :
    check_cache env.cacheSearch self.cache_threshold = some d.text ∧
    self.invoke pyembed pyhash env st q = (⟨d.text, true, str "CAG"⟩, st) := by
  constructor
  · rw [hres]; simp [check_cache, hsim]
  · exact invoke_hit self pyembed pyhash env st q d ds hq hres hsim htext

/-- Witness for C2 at a concrete input. -/
theorem C2_cache_hit_witness :
    check_cache (.ok [⟨(1 : Rat) / 10, str "답변", str "pdf_pre_cache"⟩])
        ({} : CAGRAGChain).cache_threshold = some (str "답변") ∧
    ({} : CAGRAGChain).invoke (fun s => s) (fun _ => (0 : Int))
        ⟨.ok [⟨(1 : Rat) / 10, str "답변", str "pdf_pre_cache"⟩], .ok [], .ok (str "x")⟩
        ⟨[], [], 5⟩ (str "무엇") =
      (⟨str "답변", true, str "CAG"⟩, ⟨[], [], 5⟩) :=
  C2_cache_hit_returns_text_no_writeback {} (fun s => s) (fun _ => (0 : Int))
    ⟨.ok [⟨(1 : Rat) / 10, str "답변", str "pdf_pre_cache"⟩], .ok [], .ok (str "x")⟩
    ⟨[], [], 5⟩ (str "무엇") ⟨(1 : Rat) / 10, str "답변", str "pdf_pre_cache"⟩ []
    (by decide) rfl (by norm_num [chain_default_cache_threshold]) (by decide)

/-- Claim C3: when the invocation reaches the Generator and the LLM call
raises a transport (`"Connection" in str(e)`) or timeout
(`"timeout" in str(e).lower()`) error, the chain returns the corresponding
fixed user-visible error string with `cache_hit = false` and
`source = RAG`, and no cache write occurs: the state (index and eviction
window) is exactly as before the call. -/
theorem C3_generation_failure_no_cache_write (self : CAGRAGChain)
    (pyembed : PyStr → PyStr) (pyhash : PyStr → Int) (env : ChainEnv)
    (st : CacheState) (q : PyStr) (hits : List ESHit) (e : PyStr)
    (hq : q ≠ [])
    (hmiss : pyTruthyOptStr (check_cache env.cacheSearch self.cache_threshold) = false)
    (hret : env.retrieval = .ok hits) (hne : hits ≠ [])
    (hgen : env.generation = .error e)
    (herr : pyContains e (str "Connection") = true ∨
      pyContains (pyLower e) (str "timeout") = true) :
    ((self.invoke pyembed pyhash env st q).1.answer = gen_conn_error_msg ∨
      (self.invoke pyembed pyhash env st q).1.answer = gen_timeout_error_msg) ∧
    (self.invoke pyembed pyhash env st q).1.cache_hit = false ∧
    (self.invoke pyembed pyhash env st q).1.source = str "RAG" ∧
    (self.invoke pyembed pyhash env st q).2 = st := by
  rw [invoke_miss self pyembed pyhash env st q hq hmiss]
  exact rag_fallback_gen_error pyembed pyhash env st q hits e hret hne hgen herr

/-- Witness for C3 at a concrete input (a timeout error). -/
theorem C3_generation_failure_witness :
    (({} : CAGRAGChain).invoke (fun s => s) (fun _ => (0 : Int))
        ⟨.ok [], .ok [⟨str "s", str "c"⟩], .error (str "timeout")⟩
        ⟨[], [], 5⟩ (str "질문")).2 = ⟨[], [], 5⟩ :=
  (C3_generation_failure_no_cache_write {} (fun s => s) (fun _ => (0 : Int))
    ⟨.ok [], .ok [⟨str "s", str "c"⟩], .error (str "timeout")⟩
    ⟨[], [], 5⟩ (str "질문") [⟨str "s", str "c"⟩] (str "timeout")
    (by decide) rfl rfl (by decide) rfl (Or.inr (by decide))).2.2.2

/-- Claim C4: the bare cache API `check_cache` defaults its threshold to
0.7 while the chain defaults `cache_threshold` to 0.85; the two defaults
differ; and at the chain's default, a hit (non-empty cached text at
similarity ≥ 0.85) returns the cached text verbatim with no write-back. -/
theorem C4_default_thresholds_asymmetry :
    check_cache_default_threshold = 7 / 10 ∧
    ({} : CAGRAGChain).cache_threshold = 85 / 100 ∧
    check_cache_default_threshold ≠ ({} : CAGRAGChain).cache_threshold ∧
    ∀ (pyembed : PyStr → PyStr) (pyhash : PyStr → Int) (env : ChainEnv)
      (st : CacheState) (q : PyStr) (d : RDoc) (ds : List RDoc),
      q ≠ [] → env.cacheSearch = .ok (d :: ds) →
      (85 / 100 : Rat) ≤ 1 - d.score → d.text ≠ [] →
      ({} : CAGRAGChain).invoke pyembed pyhash env st q =
        (⟨d.text, true, str "CAG"⟩, st) := by
  refine ⟨rfl, rfl, ?_, ?_⟩
  · show (7 / 10 : Rat) ≠ 85 / 100
    norm_num
  · intro pyembed pyhash env st q d ds hq hres hsim htext
    exact invoke_hit {} pyembed pyhash env st q d ds hq hres hsim htext

/-- Witness for C4 at a concrete input. -/
theorem C4_default_thresholds_witness :
    ({} : CAGRAGChain).invoke (fun s => s) (fun _ => (0 : Int))
        ⟨.ok [⟨(1 : Rat) / 10, str "응답", str "dynamic_cache"⟩], .ok [], .ok (str "x")⟩
        ⟨[], [], 5⟩ (str "어떻게 하나요") =
      (⟨str "응답", true, str "CAG"⟩, ⟨[], [], 5⟩) :=
  C4_default_thresholds_asymmetry.2.2.2 (fun s => s) (fun _ => (0 : Int))
    ⟨.ok [⟨(1 : Rat) / 10, str "응답", str "dynamic_cache"⟩], .ok [], .ok (str "x")⟩
    ⟨[], [], 5⟩ (str "어떻게 하나요") ⟨(1 : Rat) / 10, str "응답", str "dynamic_cache"⟩ []
    (by decide) rfl (by norm_num) (by decide)

/-- Claim C5: starting from a fresh `CAGCache` (empty deque of capacity
`N = dynamic_cache_size`, any pre-cached index contents), after any
sequence of completed `save_dynamic_cache` operations the eviction window
holds at most `N` keys. -/
theorem C5_window_length_bounded (pyembed : PyStr → PyStr) (pyhash : PyStr → Int)
    (idx0 : List (PyStr × Entry)) (N : Nat) (ops : List (PyStr × PyStr)) :
    (run_saves pyembed pyhash ⟨idx0, [], N⟩ ops).user_cache.length ≤ N :=
  run_saves_user_cache_le pyembed pyhash ops ⟨idx0, [], N⟩ (by simp)

/-- Claim C6: a raised vector-index search (`IndexUnavailable`) and an
empty result set both make `check_cache` return `None` — identical to a
MISS with no cached match — for every threshold; the embedding is total,
so no exception propagates to the chain or its caller. -/
theorem C6_search_error_or_empty_is_miss (t : Rat) :
    check_cache (.error ()) t = none ∧ check_cache (.ok []) t = none :=
  ⟨rfl, rfl⟩

/-- Claim C7: on the MISS path, if the retrieval call fails or returns
zero hits, the chain terminates with the fixed no-documents message,
`cache_hit = false`, `source = NONE`, and no write-back (state
unchanged). -/
theorem C7_no_docs_terminal (self : CAGRAGChain) (pyembed : PyStr → PyStr)
    (pyhash : PyStr → Int) (env : ChainEnv) (st : CacheState) (q : PyStr)
    (hq : q ≠ [])
    (hmiss : pyTruthyOptStr (check_cache env.cacheSearch self.cache_threshold) = false)
    (hret : env.retrieval = .error () ∨ env.retrieval = .ok []) :
    self.invoke pyembed pyhash env st q = (⟨no_docs_msg, false, str "NONE"⟩, st) := by
  rw [invoke_miss self pyembed pyhash env st q hq hmiss]
  exact rag_fallback_no_docs pyembed pyhash env st q hret

/-- Witness for C7 at a concrete input (retrieval raises). -/
theorem C7_no_docs_witness :
    ({} : CAGRAGChain).invoke (fun s => s) (fun _ => (0 : Int))
        ⟨.ok [], .error (), .ok (str "x")⟩ ⟨[], [], 5⟩ (str "무엇인가요") =
      (⟨no_docs_msg, false, str "NONE"⟩, ⟨[], [], 5⟩) :=
  C7_no_docs_terminal {} _ _ _ _ _ (by decide) rfl (Or.inl rfl)

/-- Claim C8: the line-scan on the text
`"질문입니까?\n답변1\n답변2\n또 질문인가요?\n답변3"` yields exactly the two
pairs `("질문입니까?", "답변1\n답변2")` and `("또 질문인가요?", "답변3")`. -/
theorem C8_two_pairs_extracted :
    extract_qa_pairs_page (str "질문입니까?\n답변1\n답변2\n또 질문인가요?\n답변3") =
      [⟨str "질문입니까?", str "답변1\n답변2"⟩,
       ⟨str "또 질문인가요?", str "답변3"⟩] := by
  decide

/-- Claim C9: (1) a question line immediately followed by another question
line contributes no pair for the first question — the scan's output is
whatever the pending pair flushes plus the scan of the remainder with the
second question open and an empty buffer; (2) lines encountered before any
question has opened are discarded; (3) every emitted pair comes from a
flush with a truthy question and at least one accumulated answer line. -/
theorem C9_scan_edge_cases :
    (∀ (cq : Option PyStr) (ca : List PyStr) (l1 l2 : PyStr) (rest : List PyStr),
      question_match (pyStrip l1) = true → question_match (pyStrip l2) = true →
      scanPairs (l1 :: l2 :: rest) cq ca =
        flushPair cq ca ++ scanPairs rest (some (pyStrip l2)) []) ∧
    (∀ (l : PyStr) (rest : List PyStr) (ca : List PyStr),
      question_match (pyStrip l) = false →
      scanPairs (l :: rest) none ca = scanPairs rest none ca) ∧
    (∀ (lines : List PyStr) (cq : Option PyStr) (ca : List PyStr) (p : QAPair),
      p ∈ scanPairs lines cq ca →
      ∃ q b, q ≠ [] ∧ b ≠ [] ∧ p = ⟨q, pyStrip (joinNL b)⟩) := by
  refine ⟨?_, ?_, ?_⟩
  · intro cq ca l1 l2 rest h1 h2
    simp [scanPairs, flushPair, h1, h2]
  · intro l rest ca h
    simp [scanPairs, h]
  · intro lines
    induction lines with
    | nil => intro cq ca p hp; exact mem_flushPair hp
    | cons l rest ih =>
      intro cq ca p hp
      simp only [scanPairs] at hp
      split at hp
      · rcases List.mem_append.mp hp with h | h
        · exact mem_flushPair h
        · exact ih _ _ _ h
      · split at hp
        · split at hp
          · exact ih _ _ _ hp
          · exact ih _ _ _ hp
        · exact ih _ _ _ hp

/-- Witness for C9 at a concrete input (two adjacent question lines). -/
theorem C9_scan_edge_cases_witness :
    scanPairs [str "절차", str "방법"] none [] =
      flushPair none [] ++ scanPairs [] (some (pyStrip (str "방법"))) [] :=
  C9_scan_edge_cases.1 none [] (str "절차") (str "방법") [] (by decide) (by decide)

/-- Claim C10: (1) when the best cached match's stored text is the empty
string, `check_cache` returns `some ""` but the chain treats the lookup as
a MISS — the invocation equals the RAG fallback path — even at similarity
≥ threshold; (2) an empty question returns the fixed prompt-for-input
answer with `cache_hit = false` and `source = NONE`, leaving the cache
state untouched. -/
theorem C10_falsy_edges :
    (∀ (self : CAGRAGChain) (pyembed : PyStr → PyStr) (pyhash : PyStr → Int)
      (env : ChainEnv) (st : CacheState) (q : PyStr) (d : RDoc) (ds : List RDoc),
      q ≠ [] → env.cacheSearch = .ok (d :: ds) →
      self.cache_threshold ≤ 1 - d.score → d.text = [] →
      check_cache env.cacheSearch self.cache_threshold = some [] ∧
      self.invoke pyembed pyhash env st q = rag_fallback pyembed pyhash env st q) ∧
    (∀ (self : CAGRAGChain) (pyembed : PyStr → PyStr) (pyhash : PyStr → Int)
      (env : ChainEnv) (st : CacheState),
      self.invoke pyembed pyhash env st [] =
        (⟨empty_question_msg, false, str "NONE"⟩, st)) := by
  constructor
  · intro self pyembed pyhash env st q d ds hq hres hsim htext
    have hcc : check_cache env.cacheSearch self.cache_threshold = some [] := by
      rw [hres]; simp [check_cache, hsim, htext]
    exact ⟨hcc, invoke_miss self pyembed pyhash env st q hq (by rw [hcc]; rfl)⟩
  · intro self pyembed pyhash env st
    rfl

/-- Witness for C10 at a concrete input (empty stored text at high
similarity). -/
theorem C10_falsy_edges_witness :
    check_cache (.ok [⟨(1 : Rat) / 10, [], str "dynamic_cache"⟩])
        ({} : CAGRAGChain).cache_threshold = some [] ∧
    ({} : CAGRAGChain).invoke (fun s => s) (fun _ => (0 : Int))
        ⟨.ok [⟨(1 : Rat) / 10, [], str "dynamic_cache"⟩], .ok [], .ok (str "x")⟩
        ⟨[], [], 5⟩ (str "질문") =
      rag_fallback (fun s => s) (fun _ => (0 : Int))
        ⟨.ok [⟨(1 : Rat) / 10, [], str "dynamic_cache"⟩], .ok [], .ok (str "x")⟩
        ⟨[], [], 5⟩ (str "질문") :=
  C10_falsy_edges.1 {} (fun s => s) (fun _ => (0 : Int))
    ⟨.ok [⟨(1 : Rat) / 10, [], str "dynamic_cache"⟩], .ok [], .ok (str "x")⟩
    ⟨[], [], 5⟩ (str "질문") ⟨(1 : Rat) / 10, [], str "dynamic_cache"⟩ []
    (by decide) rfl (by norm_num [chain_default_cache_threshold]) rfl
